import Mathlib

/-
Shallow embedding of the fashion-autocomplete backend (src/server.js, with
the variant src/unnamed/part_000): JSON values and JSON.parse, the key
rotator getNextKey, the completion requester callGemini with its two-tier
model fallback, the Redis-backed cache, and the two HTTP handlers.
-/

/-- JSON values as produced by JSON.parse. Numbers are kept as a scaled
integer pair: `jnum m e` denotes m times 10 ^ e (JS number precision is not
modelled; no claim compares numeric values). -/
inductive Json where
  | jnull : Json
  | jbool : Bool → Json
  | jnum : Int → Int → Json
  | jstr : String → Json
  | jarr : List Json → Json
  | jobj : List (String × Json) → Json
deriving Repr

/-- Discriminator: is this JSON value an array? -/
def Json.isArr : Json → Bool
  | Json.jarr _ => true
  | _ => false

/-- JSON insignificant whitespace. -/
def isJsonWs (c : Char) : Bool := c = ' ' || c = '\t' || c = '\n' || c = '\r'

def skipWs (cs : List Char) : List Char := cs.dropWhile isJsonWs

def hexVal (c : Char) : Option Nat :=
  if '0' ≤ c && c ≤ '9' then some (c.toNat - 48)
  else if 'a' ≤ c && c ≤ 'f' then some (c.toNat - 87)
  else if 'A' ≤ c && c ≤ 'F' then some (c.toNat - 55)
  else none

/-- JSON string escape characters. -/
def escChar (e : Char) : Option Char :=
  if e = '"' then some '"'
  else if e = '\\' then some '\\'
  else if e = '/' then some '/'
  else if e = 'b' then some '\x08'
  else if e = 'f' then some '\x0c'
  else if e = 'n' then some '\n'
  else if e = 'r' then some '\r'
  else if e = 't' then some '\t'
  else none

/-- Parse the body of a JSON string literal (the opening quote already
consumed), returning the decoded characters and the remaining input.
Surrogate-pair combination of two \\u escapes is not modelled (no claim
involves astral-plane characters). -/
def parseStrChars : List Char → Option (List Char × List Char)
  | [] => none
  | '"' :: rest => some ([], rest)
  | '\\' :: 'u' :: h1 :: h2 :: h3 :: h4 :: rest =>
    match hexVal h1, hexVal h2, hexVal h3, hexVal h4 with
    | some a, some b, some c, some d =>
      (parseStrChars rest).map
        (fun p => (Char.ofNat (((a * 16 + b) * 16 + c) * 16 + d) :: p.1, p.2))
    | _, _, _, _ => none
  | '\\' :: e :: rest =>
    match escChar e with
    | some c => (parseStrChars rest).map (fun p => (c :: p.1, p.2))
    | none => none
  | c :: rest =>
    if c.toNat < 32 then none
    else (parseStrChars rest).map (fun p => (c :: p.1, p.2))

def digitsToNat (ds : List Char) : Nat :=
  ds.foldl (fun a c => a * 10 + (c.toNat - 48)) 0

/-- Fractional part: after a '.', at least one digit is required. -/
def parseFrac : List Char → Option (List Char × List Char)
  | '.' :: r =>
    match r.span Char.isDigit with
    | ([], _) => none
    | (ds, rest) => some (ds, rest)
  | cs => some (([] : List Char), cs)

def parseExpTail (r : List Char) : Option (Int × List Char) :=
  let (esign, r₂) : Int × List Char :=
    match r with
    | '+' :: t => (1, t)
    | '-' :: t => (-1, t)
    | _ => (1, r)
  match r₂.span Char.isDigit with
  | ([], _) => none
  | (ds, rest) => some (esign * (digitsToNat ds : Int), rest)

def parseExp : List Char → Option (Int × List Char)
  | 'e' :: r => parseExpTail r
  | 'E' :: r => parseExpTail r
  | cs => some ((0 : Int), cs)

/-- JSON number grammar: optional minus, integer part with no leading zero,
optional fraction, optional exponent. -/
def parseNum (cs : List Char) : Option (Json × List Char) :=
  let (neg, cs₁) : Bool × List Char :=
    match cs with
    | '-' :: rest => (true, rest)
    | _ => (false, cs)
  match cs₁.span Char.isDigit with
  | ([], _) => none
  | (d :: ds, cs₂) =>
    if d = '0' && !ds.isEmpty then none
    else
      match parseFrac cs₂ with
      | none => none
      | some (fds, cs₃) =>
        match parseExp cs₃ with
        | none => none
        | some (ex, cs₄) =>
          let mNat := digitsToNat (d :: ds) * 10 ^ fds.length + digitsToNat fds
          let m : Int := if neg then -(mNat : Int) else (mNat : Int)
          some (Json.jnum m (ex - (fds.length : Int)), cs₄)

mutual

def parseVal : Nat → List Char → Option (Json × List Char)
  | 0, _ => none
  | fuel + 1, cs =>
    match skipWs cs with
    | 'n' :: 'u' :: 'l' :: 'l' :: rest => some (Json.jnull, rest)
    | 't' :: 'r' :: 'u' :: 'e' :: rest => some (Json.jbool true, rest)
    | 'f' :: 'a' :: 'l' :: 's' :: 'e' :: rest => some (Json.jbool false, rest)
    | '"' :: rest => (parseStrChars rest).map (fun p => (Json.jstr (String.mk p.1), p.2))
    | '[' :: rest =>
      match skipWs rest with
      | ']' :: rest₂ => some (Json.jarr [], rest₂)
      | cs₂ =>
        match parseVal fuel cs₂ with
        | none => none
        | some (v, rest₂) => parseArrTail fuel [v] rest₂
    | '\x7b' :: rest =>
      match skipWs rest with
      | '\x7d' :: rest₂ => some (Json.jobj [], rest₂)
      | cs₂ => parseObjField fuel [] cs₂
    | cs₁ => parseNum cs₁

def parseArrTail : Nat → List Json → List Char → Option (Json × List Char)
  | 0, _, _ => none
  | fuel + 1, acc, cs =>
    match skipWs cs with
    | ',' :: rest =>
      match parseVal fuel rest with
      | none => none
      | some (v, rest₂) => parseArrTail fuel (v :: acc) rest₂
    | ']' :: rest => some (Json.jarr acc.reverse, rest)
    | _ => none

def parseObjField : Nat → List (String × Json) → List Char → Option (Json × List Char)
  | 0, _, _ => none
  | fuel + 1, acc, cs =>
    match skipWs cs with
    | '"' :: rest =>
      match parseStrChars rest with
      | none => none
      | some (kcs, rest₂) =>
        match skipWs rest₂ with
        | ':' :: rest₃ =>
          match parseVal fuel rest₃ with
          | none => none
          | some (v, rest₄) => parseObjTail fuel ((String.mk kcs, v) :: acc) rest₄
        | _ => none
    | _ => none

def parseObjTail : Nat → List (String × Json) → List Char → Option (Json × List Char)
  | 0, _, _ => none
  | fuel + 1, acc, cs =>
    match skipWs cs with
    | ',' :: rest => parseObjField fuel acc rest
    | '\x7d' :: rest => some (Json.jobj acc.reverse, rest)
    | _ => none

end

/-- JSON.parse: some value when the whole input is one valid JSON document
(with surrounding whitespace), none when JSON.parse would throw. -/
def parseJson (s : String) : Option Json :=
  match parseVal (s.length + 1) s.data with
  | some (v, rest) => if (skipWs rest).isEmpty then some v else none
  | none => none

/-! ## JS string helpers used by the suggestion handler -/

/-- JS whitespace (the WhiteSpace and LineTerminator productions), as removed
by String.prototype.trim and matched by the \s regex class. -/
def isJsSpace (c : Char) : Bool :=
  let n := c.toNat
  n = 32 || n = 9 || n = 10 || n = 13 || n = 11 || n = 12 ||
  n = 0xa0 || n = 0x1680 || (0x2000 ≤ n && n ≤ 0x200a) ||
  n = 0x2028 || n = 0x2029 || n = 0x202f || n = 0x205f || n = 0x3000 || n = 0xfeff

/-- String.prototype.trim: strip leading and trailing JS whitespace. -/
def jsTrim (s : String) : String :=
  String.mk (((s.data.dropWhile isJsSpace).reverse.dropWhile isJsSpace).reverse)

/-- text.slice(0, cursor): an absent cursor (undefined) keeps the whole
string, a negative cursor counts from the end, and the result is clamped to
the string bounds. Positions are modelled as characters (the sources' UTF-16
code-unit positions agree on basic-plane text). -/
def jsSliceTo (s : String) (cursor : Option Int) : String :=
  match cursor with
  | none => s
  | some n =>
    let len : Int := (s.length : Int)
    let e : Int := if n < 0 then max (len + n) 0 else min n len
    String.mk (s.data.take e.toNat)

/-- The separator class of the tokenizing regex /[\s,，.。]+/. -/
def isSeparator (c : Char) : Bool :=
  isJsSpace c || c = ',' || c = '，' || c = '.' || c = '。'

mutual

/-- State of String.prototype.split on /[\s,，.。]+/ while inside a word:
`acc` holds the reversed characters of the word read so far. -/
def splitSepsWord : List Char → List Char → List String
  | acc, [] => [String.mk acc.reverse]
  | acc, c :: cs =>
    if isSeparator c then String.mk acc.reverse :: splitSepsSep cs
    else splitSepsWord (c :: acc) cs

/-- State of the split just after a separator run began: the run is consumed
greedily; a run that reaches the end of the string contributes a final empty
piece, as JS split does. -/
def splitSepsSep : List Char → List String
  | [] => [("")]
  | c :: cs => if isSeparator c then splitSepsSep cs else splitSepsWord [c] cs

end

/-- s.split(/[\s,，.。]+/): pieces between maximal separator runs, with an
empty leading or trailing piece when the string starts or ends with a run. -/
def splitSeps (s : String) : List String := splitSepsWord [] s.data

/-- The handler's computed last token:
`text.slice(0, cursor).trim().split(/[\s,，.。]+/)` and then the last element
(`words[words.length - 1]`; split never returns an empty array, and an empty
string is what makes the subsequent falsy test short-circuit). -/
def lastWordOf (text : String) (cursor : Option Int) : String :=
  (splitSeps (jsTrim (jsSliceTo text cursor))).getLastD ("")

/-- Duplicate JSON object keys: the last occurrence wins, as in JSON.parse. -/
def lookupFieldLast (fs : List (String × Json)) (k : String) : Option Json :=
  (fs.reverse.find? (fun p => p.1 == k)).map Prod.snd

/-- JS evaluation of `v.length > 0`: throws on null, is the length for
arrays and strings, reads a `length` property on objects (undefined, hence a
false comparison, unless present and numeric), and is a false comparison for
numbers and booleans, whose `length` is undefined. -/
def jsLengthGtZero : Json → Except String Bool
  | Json.jnull => Except.error ("Cannot read properties of null (reading 'length')")
  | Json.jarr xs => Except.ok (decide (0 < xs.length))
  | Json.jstr s => Except.ok (decide (0 < s.length))
  | Json.jobj fs =>
    Except.ok (match lookupFieldLast fs ("length") with
      | some (Json.jnum m _) => decide (0 < m)
      | _ => false)
  | _ => Except.ok false

/-- Remove the literal pattern `p` from the front of `cs`, if present. -/
def dropLit : List Char → List Char → Option (List Char)
  | [], cs => some cs
  | _ :: _, [] => none
  | p :: ps, c :: cs => if p = c then dropLit ps cs else none

/-- Replace every non-overlapping occurrence of a nonempty literal pattern,
scanning left to right, as s.replace(/literal/g, rep) does. The fuel is the
input length plus one; every step consumes at least one character. -/
def replaceAllAux (p₀ : Char) (ps rep : List Char) : Nat → List Char → List Char
  | 0, cs => cs
  | _ + 1, [] => []
  | fuel + 1, c :: cs =>
    if c = p₀ then
      match dropLit ps cs with
      | some rest => rep ++ replaceAllAux p₀ ps rep fuel rest
      | none => c :: replaceAllAux p₀ ps rep fuel cs
    else c :: replaceAllAux p₀ ps rep fuel cs

def replaceAll (pat rep s : String) : String :=
  match pat.data with
  | [] => s
  | p₀ :: ps => String.mk (replaceAllAux p₀ ps rep.data (s.length + 1) s.data)

/-- Char.toLower on the ASCII range; String.prototype.toLowerCase is applied
in the sources to search tokens and vocabulary words, and both call sites
use the same function, so only the ASCII case mapping is modelled. -/
def lowerChar (c : Char) : Char :=
  if 'A' ≤ c && c ≤ 'Z' then Char.ofNat (c.toNat + 32) else c

def upperChar (c : Char) : Char :=
  if 'a' ≤ c && c ≤ 'z' then Char.ofNat (c.toNat - 32) else c

def jsToLower (s : String) : String := String.mk (s.data.map lowerChar)

def jsToUpper (s : String) : String := String.mk (s.data.map upperChar)

/-! ## Key rotator (src/server.js lines 26-39) -/

/-- getNextKey: null when the pool is empty; otherwise the credential at the
cursor, trimmed, and the cursor advanced by one modulo the pool size. An
out-of-range cursor (never reached from the initial cursor 0) would make the
source throw on `undefined.trim()`; here the lookup is `get?`, and theorems
that draw a key assume the cursor in range. -/
def getNextKey (apiKeys : List String) (currentKeyIndex : Nat) : Option String × Nat :=
  if apiKeys.isEmpty then (none, currentKeyIndex)
  else ((apiKeys.get? currentKeyIndex).map jsTrim, (currentKeyIndex + 1) % apiKeys.length)

/-- The keys handed out by n consecutive getNextKey calls starting at
cursor i. -/
def rotatorKeys (apiKeys : List String) : Nat → Nat → List (Option String)
  | _, 0 => []
  | i, n + 1 => (getNextKey apiKeys i).1 :: rotatorKeys apiKeys (getNextKey apiKeys i).2 n

/-! ## Completion requester (src/server.js lines 42-111) -/

/-- Strip code-fence markers and trim, as applied to the model's answer:
`rawText.replace(/```json/g, '').replace(/```/g, '').trim()`. -/
def stripFences (s : String) : String :=
  jsTrim (replaceAll ("```") ("") (replaceAll ("```json") ("") s))

/-- Outcome of one outbound generateContent call: `fail` covers an axios
rejection (network error or non-2xx status) and a response body missing the
candidates[0].content.parts[0].text path; `ok rawText` carries the model's
textual answer. -/
inductive NetOutcome where
  | fail : NetOutcome
  | ok : String → NetOutcome
deriving Repr, DecidableEq

/-- Observable actions of one request, for stating which cache and model
interactions occur. -/
inductive Event where
  | cacheGet : String → Event
  | cacheSetex : String → Nat → Json → Event
  | modelCall : String → String → String → Event
deriving Repr

def Event.isModel : Event → Bool
  | Event.modelCall _ _ _ => true
  | _ => false

def hasModelCall (evs : List Event) : Bool := evs.any Event.isModel

/-- The optional request context: `{season?: string}`. -/
structure GeminiCtx where
  season : Option String
deriving Repr, DecidableEq

/-- The season-prioritization clause, present only when
`userContext && userContext.season` is truthy (an absent context, absent
season, or empty season string leaves it out). toUpperCase is modelled on
ASCII letters. -/
def contextInstruction (userContext : Option GeminiCtx) : String :=
  match userContext with
  | some ctx =>
    match ctx.season with
    | some s =>
      if s = "" then ""
      else "Context: The user is designing for " ++ jsToUpper s ++
        ". Prioritize materials/styles suitable for this season."
    | none => ""
  | none => ""

/-- The instruction payload, reproducing the template literal of callGemini
(role line, optional season clause, verbatim sentence and trigger, task list,
and the output-format block that inlines the trigger a second time). -/
def buildPrompt (fullText triggerWord : String) (userContext : Option GeminiCtx) : String :=
  "\n        Role: Context-Aware Fashion LSP Engine.\n        " ++
  contextInstruction userContext ++
  "\n        Input Sentence: \"" ++ fullText ++
  "\"\n        Focused Trigger Word: \"" ++ triggerWord ++
  "\"\n        \n        Task: \n        1. Suggest completions for the trigger word.\n        2. Treat Pinyin as Chinese.\n        3. If the trigger matches a known industry term, suggest it.\n        \n        Output Format (LSP Standard):\n        Return a raw JSON array of objects:\n        [\x7b\n            \"label\": \"Display Text\",\n            \"insertText\": \"Text to insert\",\n            \"kind\": \"Category (材质/造型)\",\n            \"detail\": \"Short explanation\",\n            \"trigger\": \"" ++
  triggerWord ++ "\"\n        \x7d]\n    "

/-- sendRequest(modelId): none when the call fails at any point — axios
rejection, missing answer path, or a JSON.parse throw on the cleaned text —
all of which the enclosing catch in callGemini treats alike; some v when the
cleaned answer parses. -/
def trySend (net : String → String → String → NetOutcome)
    (modelId apiKey prompt : String) : Option Json :=
  match net modelId apiKey prompt with
  | NetOutcome.fail => none
  | NetOutcome.ok rawText => parseJson (stripFences rawText)

/-- callGemini: draw a key (an empty pool, or a key that trims to the empty
string, is falsy and yields [] at once), build the prompt, try the primary
model, and on any failure retry once against gemini-2.5-pro with the same
key and prompt; a double failure yields []. Returns the result, the rotation
cursor after the draw, and the outbound calls made. -/
def callGemini (net : String → String → String → NetOutcome)
    (apiKeys : List String) (keyIdx : Nat)
    (fullText triggerWord : String) (userContext : Option GeminiCtx) :
    Json × Nat × List Event :=
  match getNextKey apiKeys keyIdx with
  | (none, idx') => (Json.jarr [], idx', [])
  | (some apiKey, idx') =>
    if apiKey = "" then (Json.jarr [], idx', [])
    else
      let prompt := buildPrompt fullText triggerWord userContext
      match trySend net ("gemini-3-pro-preview") apiKey prompt with
      | some v => (v, idx', [Event.modelCall ("gemini-3-pro-preview") apiKey prompt])
      | none =>
        match trySend net ("gemini-2.5-pro") apiKey prompt with
        | some v =>
          (v, idx', [Event.modelCall ("gemini-3-pro-preview") apiKey prompt,
            Event.modelCall ("gemini-2.5-pro") apiKey prompt])
        | none =>
          (Json.jarr [], idx', [Event.modelCall ("gemini-3-pro-preview") apiKey prompt,
            Event.modelCall ("gemini-2.5-pro") apiKey prompt])

/-! ## Redis model

The store is an association list from keys to the JSON value whose
serialization is stored: every write in this program stores
JSON.stringify(v), which is injective and never produces an empty (falsy)
string, so a present key always reads back as a truthy string that
JSON.parse re-decodes to the written value. A failing command rejects its
promise with message failMsg; whether each command kind fails is a per-store
flag, so a scenario can make the read succeed and the write fail. Expiry
times are passed through but their passage is not modelled (no claim is
about TTL expiry). -/

abbrev Store := List (String × Json)

def lookupStore : Store → String → Option Json
  | [], _ => none
  | (k, v) :: rest, key => if k = key then some v else lookupStore rest key

def setStore : Store → String → Json → Store
  | [], key, v => [(key, v)]
  | (k, w) :: rest, key, v =>
    if k = key then (key, v) :: rest else (k, w) :: setStore rest key v

def delStore : Store → String → Store
  | [], _ => []
  | (k, w) :: rest, key =>
    if k = key then delStore rest key else (k, w) :: delStore rest key

structure RedisModel where
  store : Store
  failGet : Bool
  failSet : Bool
  failDel : Bool
  failMsg : String
deriving Repr

/-! ## Suggestion handler (src/server.js lines 114-151) -/

/-- The request body fields the handler destructures; an absent `text`
models a body without a text string (on which `text.slice` throws). -/
structure CompleteReq where
  text : Option String
  cursor : Option Int
  context : Option GeminiCtx
deriving Repr

/-- The two responses the handler itself sends: `ok v` is
res.json(\x7bsuggestions: v\x7d) with status 200, `internalError d` is
status 500 with body \x7berror: "Internal Server Error", details: d\x7d (the
part_000 variant omits the details field; nothing else differs). -/
inductive CompleteResp where
  | ok : Json → CompleteResp
  | internalError : String → CompleteResp
deriving Repr

/-- Handler outcome: `resp = Except.error m` means an exception with message
m escaped the handler before the try block, so no response is sent by the
handler at all (under Express 4 the promise rejection is unhandled). -/
structure CompleteOut where
  resp : Except String CompleteResp
  redis : Option RedisModel
  keyIdx : Nat
  events : List Event
deriving Repr

/-- The cache-miss tail of the handler: call the model, then
`if (redis && suggestions.length > 0) await redis.setex(cacheKey, 3600, ...)`
— the truthiness test of redis short-circuits before .length is read — and
respond with the suggestions; a setex rejection or a throwing .length read is
caught by the handler's catch and becomes a 500. -/
def completeMiss (net : String → String → String → NetOutcome)
    (redis : Option RedisModel) (keyIdx : Nat) (apiKeys : List String)
    (textBeforeCursor lastWord : String) (ctx : Option GeminiCtx)
    (cacheKey : String) (preEvents : List Event) : CompleteOut :=
  let r3 := callGemini net apiKeys keyIdx textBeforeCursor lastWord ctx
  let suggestions := r3.1
  let idx' := r3.2.1
  let evs := preEvents ++ r3.2.2
  match redis with
  | none => ⟨Except.ok (CompleteResp.ok suggestions), none, idx', evs⟩
  | some r =>
    match jsLengthGtZero suggestions with
    | Except.error m => ⟨Except.ok (CompleteResp.internalError m), some r, idx', evs⟩
    | Except.ok true =>
      if r.failSet then
        ⟨Except.ok (CompleteResp.internalError r.failMsg), some r, idx',
          evs ++ [Event.cacheSetex cacheKey 3600 suggestions]⟩
      else
        ⟨Except.ok (CompleteResp.ok suggestions),
          some ⟨setStore r.store cacheKey suggestions, r.failGet, r.failSet, r.failDel, r.failMsg⟩,
          idx', evs ++ [Event.cacheSetex cacheKey 3600 suggestions]⟩
    | Except.ok false => ⟨Except.ok (CompleteResp.ok suggestions), some r, idx', evs⟩

/-- POST /api/complete. Slicing and tokenizing happen before the try block,
so a throw there (text absent) escapes; from the cache read onward,
exceptions are caught and become 500 responses. An empty last token
short-circuits to \x7bsuggestions: []\x7d before any cache or model
interaction. A cache hit (the stored string is truthy and re-parses to the
stored value) is returned directly. -/
def completeHandler (net : String → String → String → NetOutcome)
    (apiKeys : List String) (keyIdx : Nat) (redis : Option RedisModel)
    (req : CompleteReq) : CompleteOut :=
  match req.text with
  | none =>
    ⟨Except.error ("TypeError: Cannot read properties of undefined (reading 'slice')"),
      redis, keyIdx, []⟩
  | some text =>
    let textBeforeCursor := jsSliceTo text req.cursor
    let lastWord := lastWordOf text req.cursor
    if lastWord = "" then ⟨Except.ok (CompleteResp.ok (Json.jarr [])), redis, keyIdx, []⟩
    else
      let cacheKey := "autofill:" ++ jsToLower lastWord
      match redis with
      | some r =>
        if r.failGet then
          ⟨Except.ok (CompleteResp.internalError r.failMsg), some r, keyIdx,
            [Event.cacheGet cacheKey]⟩
        else
          match lookupStore r.store cacheKey with
          | some cached =>
            ⟨Except.ok (CompleteResp.ok cached), some r, keyIdx, [Event.cacheGet cacheKey]⟩
          | none =>
            completeMiss net (some r) keyIdx apiKeys textBeforeCursor lastWord req.context
              cacheKey [Event.cacheGet cacheKey]
      | none =>
        completeMiss net none keyIdx apiKeys textBeforeCursor lastWord req.context cacheKey []

/-! ## Feedback handler (src/server.js lines 154-172) -/

structure FeedbackReq where
  word : Option String
  category : Option String
deriving Repr, DecidableEq

/-- badRequest: 400 \x7berror: "Invalid request"\x7d; okResp m: 200
\x7bsuccess: true, message: m\x7d; storeError: 500
\x7berror: "Redis Write Failed"\x7d. -/
inductive FeedbackResp where
  | badRequest : FeedbackResp
  | okResp : String → FeedbackResp
  | storeError : FeedbackResp
deriving Repr, DecidableEq

/-- The value stored under dict:word — JSON.stringify omits the category
field when it is undefined; addedAt is the serialized `new Date()`, passed
in as `now`. -/
def vocabValue (word : String) (category : Option String) (now : String) : Json :=
  Json.jobj ([(("word"), Json.jstr word)] ++
    (match category with
     | some c => [(("category"), Json.jstr c)]
     | none => []) ++ [(("addedAt"), Json.jstr now)])

/-- POST /api/feedback: 400 when word is falsy or no store is configured;
otherwise set dict:word permanently, delete autofill:word.toLowerCase(), and
acknowledge; a rejection of either store command is caught and becomes the
500 store error (after a successful set, a failing del leaves the dict write
in place). -/
def feedbackHandler (redis : Option RedisModel) (now : String) (req : FeedbackReq) :
    FeedbackResp × Option RedisModel :=
  match req.word with
  | none => (FeedbackResp.badRequest, redis)
  | some word =>
    if word = "" then (FeedbackResp.badRequest, redis)
    else
      match redis with
      | none => (FeedbackResp.badRequest, redis)
      | some r =>
        if r.failSet then (FeedbackResp.storeError, some r)
        else
          let r' : RedisModel :=
            ⟨setStore r.store ("dict:" ++ word) (vocabValue word req.category now),
              r.failGet, r.failSet, r.failDel, r.failMsg⟩
          if r.failDel then (FeedbackResp.storeError, some r')
          else
            (FeedbackResp.okResp ("Learned: " ++ word),
              some ⟨delStore r'.store ("autofill:" ++ jsToLower word),
                r.failGet, r.failSet, r.failDel, r.failMsg⟩)

/-! ## Registered HTTP surface -/

/-- The routes the application registers, in source order: the two POST
handlers and the GET liveness/landing route (the part_000 variant
additionally serves static files from public/, which answers only GET/HEAD
and registers no POST route). -/
def registeredRoutes : List (String × String) :=
  [("POST", "/api/complete"), ("POST", "/api/feedback"), ("GET", "/")]

/-- Does the event list record a cache write? -/
def Event.isSetex : Event → Bool
  | Event.cacheSetex _ _ _ => true
  | _ => false

def hasSetex (evs : List Event) : Bool := evs.any Event.isSetex

/-- The suggestion-cache invariant of claim C10, in its code-accurate form:
every value stored under an autofill: key passes the handler's JS length
test. -/
def autofillInv (st : Store) : Prop :=
  ∀ w v, lookupStore st ("autofill:" ++ w) = some v → jsLengthGtZero v = Except.ok true

/-! ## Theorems -/

/-! ### Store lemmas -/

theorem lookupStore_setStore_self (st : Store) (k : String) (v : Json) :
    lookupStore (setStore st k v) k = some v := by
  induction st with
  | nil => simp [setStore, lookupStore]
  | cons hd tl ih =>
    obtain ⟨k₀, v₀⟩ := hd
    by_cases h : k₀ = k <;> simp [setStore, lookupStore, h, ih]

theorem lookupStore_setStore_of_ne (st : Store) (k k' : String) (v : Json) (h : k ≠ k') :
    lookupStore (setStore st k v) k' = lookupStore st k' := by
  induction st with
  | nil => simp [setStore, lookupStore, h]
  | cons hd tl ih =>
    obtain ⟨k₀, v₀⟩ := hd
    by_cases h0 : k₀ = k
    · subst h0; simp [setStore, lookupStore, h]
    · simp [setStore, lookupStore, h0, ih]

theorem lookupStore_delStore_self (st : Store) (k : String) :
    lookupStore (delStore st k) k = none := by
  induction st with
  | nil => simp [delStore, lookupStore]
  | cons hd tl ih =>
    obtain ⟨k₀, v₀⟩ := hd
    by_cases h : k₀ = k <;> simp [delStore, lookupStore, h, ih]

theorem lookupStore_delStore_of_ne (st : Store) (k k' : String) (h : k ≠ k') :
    lookupStore (delStore st k) k' = lookupStore st k' := by
  induction st with
  | nil => simp [delStore, lookupStore]
  | cons hd tl ih =>
    obtain ⟨k₀, v₀⟩ := hd
    by_cases h0 : k₀ = k
    · subst h0; simp [delStore, lookupStore, h, Ne.symm h, ih]
    · simp [delStore, lookupStore, h0, ih]

/-- The dictionary namespace and the cache namespace are disjoint: a dict:
key never equals an autofill: key, whatever the words. -/
theorem dictKey_ne_autofillKey (w w' : String) : ("dict:" ++ w) ≠ ("autofill:" ++ w') := by
  intro h
  have h2 : ("dict:" ++ w).data = ("autofill:" ++ w').data := congrArg String.data h
  simp [String.data_append] at h2

/-! ### Key-rotator lemmas -/

/-- Arithmetic of the round-robin cycle: starting at cursor i, the call
numbered (j + K - i) % K draws index j. -/
theorem cycle_hit (K i j : Nat) (hi : i < K) (hj : j < K) :
    (i + (j + K - i) % K) % K = j := by
  rcases le_or_lt i j with h | h
  · have e1 : j + K - i = (j - i) + K := by omega
    rw [e1, Nat.add_mod_right, Nat.mod_eq_of_lt (by omega : j - i < K)]
    have e2 : i + (j - i) = j := by omega
    rw [e2, Nat.mod_eq_of_lt hj]
  · have e1 : (j + K - i) % K = j + K - i := Nat.mod_eq_of_lt (by omega)
    rw [e1]
    have e2 : i + (j + K - i) = j + K := by omega
    rw [e2, Nat.add_mod_right, Nat.mod_eq_of_lt hj]

/-- Closed form of the rotation: the n-th consecutive draw comes from index
(i + n) mod K. -/
theorem rotatorKeys_closed (keys : List String) (hne : keys ≠ []) :
    ∀ (n i : Nat), i < keys.length →
      rotatorKeys keys i n =
        (List.range n).map (fun m => (keys.get? ((i + m) % keys.length)).map jsTrim) := by
  have hE : keys.isEmpty = false := by cases keys <;> simp_all
  have hK : 0 < keys.length := by cases keys <;> simp_all
  intro n
  induction n with
  | zero => intro i _; simp [rotatorKeys]
  | succ n ih =>
    intro i hi
    have hg : getNextKey keys i = ((keys.get? i).map jsTrim, (i + 1) % keys.length) := by
      simp [getNextKey, hE]
    have hi' : (i + 1) % keys.length < keys.length := Nat.mod_lt _ hK
    rw [rotatorKeys, hg]
    simp only
    rw [ih ((i + 1) % keys.length) hi']
    rw [List.range_succ_eq_map, List.map_cons, List.map_map]
    congr 1
    · rw [Nat.add_zero, Nat.mod_eq_of_lt hi]
    · apply List.map_congr_left
      intro m _
      have : ((i + 1) % keys.length + m) % keys.length = (i + (m + 1)) % keys.length := by
        rw [Nat.mod_add_mod]
        congr 1
        omega
      simp [Function.comp, this]

/-! ### C6 -/

/-- C6: getNextKey returns absent (leaving the cursor alone) on an empty
pool; otherwise it returns the credential at the cursor — trimmed, as the
source does — and advances the cursor modulo the pool size, so that over any
N ≥ K consecutive calls every credential of a pool of size K is drawn at
least once. -/
theorem getNextKey_roundRobin (keys : List String) (i N j : Nat) :
    (keys = [] → getNextKey keys i = (none, i)) ∧
    (i < keys.length →
      getNextKey keys i = ((keys.get? i).map jsTrim, (i + 1) % keys.length)) ∧
    (i < keys.length → keys.length ≤ N → j < keys.length →
      ((keys.get? j).map jsTrim) ∈ rotatorKeys keys i N) := by
  refine ⟨?_, ?_, ?_⟩
  · intro h; subst h; simp [getNextKey]
  · intro hi
    have hE : keys.isEmpty = false := by
      cases keys
      · simp at hi
      · simp
    simp [getNextKey, hE]
  · intro hi hN hj
    have hne : keys ≠ [] := by intro h; subst h; simp at hj
    have hK : 0 < keys.length := by omega
    rw [rotatorKeys_closed keys hne N i hi]
    refine List.mem_map.mpr ⟨(j + keys.length - i) % keys.length, ?_, ?_⟩
    · exact List.mem_range.mpr (lt_of_lt_of_le (Nat.mod_lt _ hK) hN)
    · rw [cycle_hit keys.length i j hi hj]

/-- C6 witness: a two-credential pool, starting at cursor 1 with two calls.
The second pool entry carries surrounding spaces and is drawn trimmed. -/
theorem getNextKey_roundRobin_witness :
    getNextKey ([] : List String) 5 = (none, 5) ∧
    getNextKey [("a"), (" b ")] 1 = (some ("b"), 0) ∧
    (some ("a") ∈ rotatorKeys [("a"), (" b ")] 1 2) := by
  refine ⟨(getNextKey_roundRobin [] 5 0 0).1 rfl, ?_, ?_⟩
  · have h := (getNextKey_roundRobin [("a"), (" b ")] 1 2 0).2.1 (by decide)
    rw [h]; decide
  · have h := (getNextKey_roundRobin [("a"), (" b ")] 1 2 0).2.2 (by decide) (by decide) (by decide)
    revert h
    decide

/-! ### C9 -/

/-- C9 counterexample: the application registers no POST /api/suggest and no
POST /api/validate route; the advertised aliases do not exist. -/
theorem no_suggest_or_validate_route :
    (("POST", "/api/suggest") ∉ registeredRoutes) ∧
    (("POST", "/api/validate") ∉ registeredRoutes) := by
  constructor <;> decide

/-- C9 amended: the suggestion endpoint is exposed only as POST
/api/complete and the vocabulary-feedback endpoint only as POST
/api/feedback (plus the GET liveness route); the names /api/suggest and
/api/validate are not part of the registered surface. -/
theorem registered_surface :
    registeredRoutes = [("POST", "/api/complete"), ("POST", "/api/feedback"), ("GET", "/")] ∧
    (("POST", "/api/suggest") ∉ registeredRoutes) ∧
    (("POST", "/api/validate") ∉ registeredRoutes) := by
  refine ⟨rfl, ?_, ?_⟩ <;> decide

/-! ### C4 -/

/-- C4 counterexample: the text "ab " before the cursor ends in whitespace,
yet the computed last token is "ab", not empty — the handler trims before
splitting — and with a responsive model the request returns that model's
suggestions after a model call rather than short-circuiting to an empty
list. -/
theorem whitespace_tail_not_empty_token :
    lastWordOf ("ab ") (some 3) = ("ab") ∧
    (completeHandler (fun _ _ _ => NetOutcome.ok ("[\"abric\"]")) [("k")] 0 none
        ⟨some ("ab "), some 3, none⟩).resp
      = Except.ok (CompleteResp.ok (Json.jarr [Json.jstr ("abric")])) ∧
    hasModelCall (completeHandler (fun _ _ _ => NetOutcome.ok ("[\"abric\"]")) [("k")] 0 none
        ⟨some ("ab "), some 3, none⟩).events = true :=
  ⟨rfl, rfl, rfl⟩

/-- C4 amended: whenever the computed last token is empty — which happens
when the text before the cursor is empty, is all whitespace, or ends in one
of the separator punctuation marks, but not when it merely ends in
whitespace after a word, since the text is trimmed before splitting — the
response is an empty suggestion list, the store and rotation cursor are
untouched, and no cache read, cache write or model call occurs. -/
theorem emptyLastWord_no_interaction (net : String → String → String → NetOutcome)
    (apiKeys : List String) (keyIdx : Nat) (redis : Option RedisModel)
    (req : CompleteReq) (text : String)
    (ht : req.text = some text) (h : lastWordOf text req.cursor = "") :
    completeHandler net apiKeys keyIdx redis req
      = ⟨Except.ok (CompleteResp.ok (Json.jarr [])), redis, keyIdx, []⟩ := by
  simp [completeHandler, ht, h]

/-- C4 amended, witness: text ending in a period. -/
theorem emptyLastWord_no_interaction_witness :
    lastWordOf ("ab.") (some 3) = ("") ∧
    completeHandler (fun _ _ _ => NetOutcome.fail) [("k")] 3 none ⟨some ("ab."), some 3, none⟩
      = ⟨Except.ok (CompleteResp.ok (Json.jarr [])), none, 3, []⟩ :=
  ⟨rfl, emptyLastWord_no_interaction _ _ _ _ _ ("ab.") rfl (by decide)⟩

/-! ### C5 -/

/-- C5: with a configured, read-responsive store holding the key autofill: +
lowercased last token, the response is exactly the cached value re-decoded,
the store and cursor are untouched, and the only interaction is the cache
read — in particular no model call occurs. -/
theorem cacheHit_returns_cached (net : String → String → String → NetOutcome)
    (apiKeys : List String) (keyIdx : Nat) (r : RedisModel)
    (req : CompleteReq) (text : String) (v : Json)
    (ht : req.text = some text) (hlw : lastWordOf text req.cursor ≠ "")
    (hok : r.failGet = false)
    (hhit : lookupStore r.store ("autofill:" ++ jsToLower (lastWordOf text req.cursor)) = some v) :
    completeHandler net apiKeys keyIdx (some r) req
      = ⟨Except.ok (CompleteResp.ok v), some r, keyIdx,
         [Event.cacheGet ("autofill:" ++ jsToLower (lastWordOf text req.cursor))]⟩ := by
  simp [completeHandler, ht, hlw, hok, hhit]

/-- C5 witness: a store holding two suggestions for "silk", hit by the
lookup for text "I love Silk". -/
theorem cacheHit_returns_cached_witness :
    completeHandler (fun _ _ _ => NetOutcome.fail) [("k")] 0
        (some ⟨[("autofill:silk", Json.jarr [Json.jstr ("silk dress")])], false, false, false, ("m")⟩)
        ⟨some ("I love Silk"), some 11, none⟩
      = ⟨Except.ok (CompleteResp.ok (Json.jarr [Json.jstr ("silk dress")])),
         some ⟨[("autofill:silk", Json.jarr [Json.jstr ("silk dress")])], false, false, false, ("m")⟩,
         0, [Event.cacheGet ("autofill:silk")]⟩ :=
  cacheHit_returns_cached _ _ _ _ _ ("I love Silk") _ rfl (by decide) rfl rfl

/-! ### C2 -/

/-- The requester yields the empty array whenever the pool is empty or every
outbound attempt fails (axios rejection, missing answer path, or JSON.parse
failure on the cleaned answer — all the cases trySend maps to none). -/
theorem callGemini_empty_of_fail (net : String → String → String → NetOutcome)
    (keys : List String) (idx : Nat) (fullText trigger : String) (ctx : Option GeminiCtx)
    (hfail : keys = [] ∨ ∀ m k p, trySend net m k p = none) :
    (callGemini net keys idx fullText trigger ctx).1 = Json.jarr [] := by
  rcases hfail with h | h
  · subst h; simp [callGemini, getNextKey]
  · rcases hk : getNextKey keys idx with ⟨ko, idx'⟩
    cases ko with
    | none => simp [callGemini, hk]
    | some k =>
      by_cases h0 : k = ""
      · simp [callGemini, hk, h0]
      · simp [callGemini, hk, h0, h]

/-- C2: on a lookup with a non-empty computed last token and a cache miss,
an empty credential pool or failure of both the primary and the fallback
call (network error, non-2xx, or an unparsable answer) makes the requester
return an empty list without raising, and the HTTP response is
\x7bsuggestions: []\x7d with success status, never an error response. -/
theorem totalFailure_yields_empty_200 (net : String → String → String → NetOutcome)
    (apiKeys : List String) (keyIdx : Nat) (redis : Option RedisModel)
    (req : CompleteReq) (text : String)
    (ht : req.text = some text) (hlw : lastWordOf text req.cursor ≠ "")
    (hmiss : redis = none ∨ ∃ r, redis = some r ∧ r.failGet = false ∧
      lookupStore r.store ("autofill:" ++ jsToLower (lastWordOf text req.cursor)) = none)
    (hfail : apiKeys = [] ∨ ∀ m k p, trySend net m k p = none) :
    (callGemini net apiKeys keyIdx (jsSliceTo text req.cursor)
        (lastWordOf text req.cursor) req.context).1 = Json.jarr [] ∧
    (completeHandler net apiKeys keyIdx redis req).resp
      = Except.ok (CompleteResp.ok (Json.jarr [])) := by
  have hcg := callGemini_empty_of_fail net apiKeys keyIdx (jsSliceTo text req.cursor)
    (lastWordOf text req.cursor) req.context hfail
  refine ⟨hcg, ?_⟩
  rcases hmiss with h | ⟨r, hr, hget, hlook⟩
  · subst h
    simp [completeHandler, ht, hlw, completeMiss, hcg]
  · subst hr
    simp [completeHandler, ht, hlw, hget, hlook, completeMiss, hcg, jsLengthGtZero]

/-- C2 witness: one credential, both models unreachable, empty store. -/
theorem totalFailure_yields_empty_200_witness :
    (callGemini (fun _ _ _ => NetOutcome.fail) [("k1")] 0 (jsSliceTo ("I love si") (some 9))
        (lastWordOf ("I love si") (some 9)) none).1 = Json.jarr [] ∧
    (completeHandler (fun _ _ _ => NetOutcome.fail) [("k1")] 0
        (some ⟨[], false, false, false, ("m")⟩)
        ⟨some ("I love si"), some 9, none⟩).resp
      = Except.ok (CompleteResp.ok (Json.jarr [])) :=
  totalFailure_yields_empty_200 (fun _ _ _ => NetOutcome.fail) [("k1")] 0
    (some ⟨[], false, false, false, ("m")⟩) ⟨some ("I love si"), some 9, none⟩
    ("I love si") rfl (by decide)
    (Or.inr ⟨⟨[], false, false, false, ("m")⟩, rfl, rfl, rfl⟩)
    (Or.inr (fun _ _ _ => rfl))

/-! ### C3 -/

/-- C3: when the primary call fails in any way, callGemini makes exactly one
retry, against gemini-2.5-pro, with the same credential and the same
instruction payload; when that retry's answer parses after fence-stripping
and trimming, the parsed value is returned, and the two recorded outbound
calls are the primary then the fallback. -/
theorem primary_fail_single_fallback (net : String → String → String → NetOutcome)
    (apiKeys : List String) (keyIdx : Nat) (fullText trigger : String)
    (ctx : Option GeminiCtx) (key raw : String) (v : Json)
    (hne : apiKeys ≠ []) (hkey : (apiKeys.get? keyIdx).map jsTrim = some key)
    (h0 : key ≠ "")
    (hfail : trySend net ("gemini-3-pro-preview") key (buildPrompt fullText trigger ctx) = none)
    (hnet2 : net ("gemini-2.5-pro") key (buildPrompt fullText trigger ctx) = NetOutcome.ok raw)
    (hparse : parseJson (stripFences raw) = some v) :
    callGemini net apiKeys keyIdx fullText trigger ctx
      = (v, (keyIdx + 1) % apiKeys.length,
         [Event.modelCall ("gemini-3-pro-preview") key (buildPrompt fullText trigger ctx),
          Event.modelCall ("gemini-2.5-pro") key (buildPrompt fullText trigger ctx)]) := by
  have hE : apiKeys.isEmpty = false := by cases apiKeys <;> simp_all
  have hg : getNextKey apiKeys keyIdx = (some key, (keyIdx + 1) % apiKeys.length) := by
    simp [getNextKey, hE]
    simpa using hkey
  have h2 : trySend net ("gemini-2.5-pro") key (buildPrompt fullText trigger ctx) = some v := by
    simp [trySend, hnet2, hparse]
  simp [callGemini, hg, h0, hfail, h2]

/-- C3 witness: the primary model is down, the fallback answers a fenced
one-object array, and the parsed array comes back with both calls recorded
against the same key and prompt. -/
theorem primary_fail_single_fallback_witness :
    callGemini
      (fun m _ _ => if m = ("gemini-3-pro-preview") then NetOutcome.fail
        else NetOutcome.ok ("```json[\x7b\"label\": \"Silk\"\x7d]```"))
      [("k1")] 0 ("I love si") ("si") none
      = (Json.jarr [Json.jobj [(("label"), Json.jstr ("Silk"))]], 0,
         [Event.modelCall ("gemini-3-pro-preview") ("k1") (buildPrompt ("I love si") ("si") none),
          Event.modelCall ("gemini-2.5-pro") ("k1") (buildPrompt ("I love si") ("si") none)]) :=
  primary_fail_single_fallback
    (fun m _ _ => if m = ("gemini-3-pro-preview") then NetOutcome.fail
      else NetOutcome.ok ("```json[\x7b\"label\": \"Silk\"\x7d]```"))
    [("k1")] 0 ("I love si") ("si") none ("k1")
    ("```json[\x7b\"label\": \"Silk\"\x7d]```")
    (Json.jarr [Json.jobj [(("label"), Json.jstr ("Silk"))]])
    (by decide) rfl (by decide) rfl rfl rfl

/-! ### C1 -/

/-- C1 counterexample: with a configured store whose read command rejects,
the suggestion lookup for "silk" returns a 500 carrying the store's error
message, the model is never called, and no suggestions are returned — the
read failure is not treated as absence, and the 500 arises in the suggestion
path, not the feedback path. -/
theorem cacheReadFailure_500_cex :
    completeHandler (fun _ _ _ => NetOutcome.ok ("[\"x\"]")) [("k")] 0
        (some ⟨[], true, false, false, ("Redis connection lost")⟩)
        ⟨some ("silk"), some 4, none⟩
      = ⟨Except.ok (CompleteResp.internalError ("Redis connection lost")),
         some ⟨[], true, false, false, ("Redis connection lost")⟩, 0,
         [Event.cacheGet ("autofill:silk")]⟩ ∧
    hasModelCall [Event.cacheGet ("autofill:silk")] = false :=
  ⟨rfl, rfl⟩

/-- C1 amended: cache-store failures are NOT swallowed in the suggestion
path — both redis.get and redis.setex live inside the handler's try block,
so a failing read yields a 500 with the error message before any model call,
and a failing write after a successful model call yields a 500 instead of
returning the suggestions. Only an unconfigured store degrades to no-ops. -/
theorem cacheFailure_not_swallowed (net : String → String → String → NetOutcome)
    (apiKeys : List String) (keyIdx : Nat) (r : RedisModel)
    (req : CompleteReq) (text : String)
    (ht : req.text = some text) (hlw : lastWordOf text req.cursor ≠ "") :
    (r.failGet = true →
      completeHandler net apiKeys keyIdx (some r) req
        = ⟨Except.ok (CompleteResp.internalError r.failMsg), some r, keyIdx,
           [Event.cacheGet ("autofill:" ++ jsToLower (lastWordOf text req.cursor))]⟩) ∧
    (r.failGet = false →
      lookupStore r.store ("autofill:" ++ jsToLower (lastWordOf text req.cursor)) = none →
      r.failSet = true →
      jsLengthGtZero (callGemini net apiKeys keyIdx (jsSliceTo text req.cursor)
          (lastWordOf text req.cursor) req.context).1 = Except.ok true →
      (completeHandler net apiKeys keyIdx (some r) req).resp
        = Except.ok (CompleteResp.internalError r.failMsg)) := by
  constructor
  · intro hget
    simp [completeHandler, ht, hlw, hget]
  · intro hget hlook hset hlen
    simp [completeHandler, ht, hlw, hget, hlook, completeMiss, hlen, hset]

/-- C1 amended, witness: a read-failing store 500s without a model call, and
a write-failing store 500s after a successful model answer. -/
theorem cacheFailure_not_swallowed_witness :
    completeHandler (fun _ _ _ => NetOutcome.ok ("[\"x\"]")) [("k")] 0
        (some ⟨[], true, false, false, ("boom")⟩) ⟨some ("silk"), some 4, none⟩
      = ⟨Except.ok (CompleteResp.internalError ("boom")),
         some ⟨[], true, false, false, ("boom")⟩, 0, [Event.cacheGet ("autofill:silk")]⟩ ∧
    (completeHandler (fun _ _ _ => NetOutcome.ok ("[\"x\"]")) [("k")] 0
        (some ⟨[], false, true, false, ("boom")⟩) ⟨some ("silk"), some 4, none⟩).resp
      = Except.ok (CompleteResp.internalError ("boom")) :=
  ⟨(cacheFailure_not_swallowed (fun _ _ _ => NetOutcome.ok ("[\"x\"]")) [("k")] 0
      ⟨[], true, false, false, ("boom")⟩ ⟨some ("silk"), some 4, none⟩ ("silk")
      rfl (by decide)).1 rfl,
   (cacheFailure_not_swallowed (fun _ _ _ => NetOutcome.ok ("[\"x\"]")) [("k")] 0
      ⟨[], false, true, false, ("boom")⟩ ⟨some ("silk"), some 4, none⟩ ("silk")
      rfl (by decide)).2 rfl rfl rfl rfl⟩

/-! ### C8 -/

/-- C8 counterexample: a request body without a text string throws while
slicing — before the try block — so the exception escapes the handler and no
500 response with the message is produced for that uncaught exception. -/
theorem missing_text_escapes_handler :
    completeHandler (fun _ _ _ => NetOutcome.fail) [] 0 none ⟨none, some 5, none⟩
      = ⟨Except.error ("TypeError: Cannot read properties of undefined (reading 'slice')"),
         none, 0, []⟩ :=
  rfl

/-- Every cache-miss continuation sends some response: all of its exception
sources (a throwing .length read, a rejecting setex) are converted to 500
responses by the handler's catch. -/
theorem completeMiss_sends_response (net : String → String → String → NetOutcome)
    (redis : Option RedisModel) (keyIdx : Nat) (apiKeys : List String)
    (tbc lw : String) (ctx : Option GeminiCtx) (ck : String) (pre : List Event) :
    ∃ resp, (completeMiss net redis keyIdx apiKeys tbc lw ctx ck pre).resp
      = Except.ok resp := by
  cases redis with
  | none => exact ⟨_, rfl⟩
  | some r =>
    simp only [completeMiss]
    cases hL : jsLengthGtZero (callGemini net apiKeys keyIdx tbc lw ctx).1 with
    | error m => exact ⟨_, rfl⟩
    | ok b =>
      cases b with
      | true =>
        by_cases hs : r.failSet
        · simp [hs]
        · simp [hs]
      | false => exact ⟨_, rfl⟩

/-- C8 amended: exceptions raised inside the try block — from the cache
read onward, covering the cache read, the model-call machinery, the .length
read and the cache write — are caught and surfaced as a 500 with the error
message in the details field; but the slicing and tokenizing steps run
before the try, so an exception there (a body without a text string) escapes
the handler, which then sends no response at all. -/
theorem inTry_exceptions_become_500 (net : String → String → String → NetOutcome)
    (apiKeys : List String) (keyIdx : Nat) (redis : Option RedisModel)
    (req : CompleteReq) :
    (req.text = none →
      (completeHandler net apiKeys keyIdx redis req).resp
        = Except.error ("TypeError: Cannot read properties of undefined (reading 'slice')")) ∧
    (∀ text, req.text = some text →
      ∃ resp, (completeHandler net apiKeys keyIdx redis req).resp = Except.ok resp) ∧
    (∀ text r, req.text = some text → lastWordOf text req.cursor ≠ "" → r.failGet = true →
      (completeHandler net apiKeys keyIdx (some r) req).resp
        = Except.ok (CompleteResp.internalError r.failMsg)) := by
  refine ⟨?_, ?_, ?_⟩
  · intro ht; simp [completeHandler, ht]
  · intro text ht
    by_cases hlw : lastWordOf text req.cursor = ""
    · exact ⟨CompleteResp.ok (Json.jarr []), by simp [completeHandler, ht, hlw]⟩
    · cases redis with
      | none =>
        obtain ⟨resp, hresp⟩ := completeMiss_sends_response net none keyIdx apiKeys
          (jsSliceTo text req.cursor) (lastWordOf text req.cursor) req.context
          ("autofill:" ++ jsToLower (lastWordOf text req.cursor)) []
        exact ⟨resp, by simp only [completeHandler, ht]; simp [hlw, hresp]⟩
      | some r =>
        by_cases hget : r.failGet
        · exact ⟨CompleteResp.internalError r.failMsg, by simp [completeHandler, ht, hlw, hget]⟩
        · cases hlook : lookupStore r.store
            ("autofill:" ++ jsToLower (lastWordOf text req.cursor)) with
          | some cached =>
            exact ⟨CompleteResp.ok cached, by simp [completeHandler, ht, hlw, hget, hlook]⟩
          | none =>
            obtain ⟨resp, hresp⟩ := completeMiss_sends_response net (some r) keyIdx apiKeys
              (jsSliceTo text req.cursor) (lastWordOf text req.cursor) req.context
              ("autofill:" ++ jsToLower (lastWordOf text req.cursor))
              [Event.cacheGet ("autofill:" ++ jsToLower (lastWordOf text req.cursor))]
            exact ⟨resp, by simp only [completeHandler, ht]; simp [hlw, hget, hlook, hresp]⟩
  · intro text r ht hlw hget
    simp [completeHandler, ht, hlw, hget]

/-- C8 amended, witness: with text present the handler answers (here: a 500
with the failing store's message, matching the third part). -/
theorem inTry_exceptions_become_500_witness :
    (completeHandler (fun _ _ _ => NetOutcome.fail) [] 0 none ⟨none, some 5, none⟩).resp
      = Except.error ("TypeError: Cannot read properties of undefined (reading 'slice')") ∧
    (∃ resp, (completeHandler (fun _ _ _ => NetOutcome.fail) [] 0 none
        ⟨some ("silk"), some 4, none⟩).resp = Except.ok resp) ∧
    (completeHandler (fun _ _ _ => NetOutcome.fail) [] 0
        (some ⟨[], true, false, false, ("down")⟩) ⟨some ("silk"), some 4, none⟩).resp
      = Except.ok (CompleteResp.internalError ("down")) :=
  ⟨(inTry_exceptions_become_500 (fun _ _ _ => NetOutcome.fail) [] 0 none
      ⟨none, some 5, none⟩).1 rfl,
   (inTry_exceptions_become_500 (fun _ _ _ => NetOutcome.fail) [] 0 none
      ⟨some ("silk"), some 4, none⟩).2.1 ("silk") rfl,
   (inTry_exceptions_become_500 (fun _ _ _ => NetOutcome.fail) [] 0
      (some ⟨[], true, false, false, ("down")⟩)
      ⟨some ("silk"), some 4, none⟩).2.2 ("silk") ⟨[], true, false, false, ("down")⟩
      rfl (by decide) rfl⟩

/-! ### C7 -/

/-- C7: a successful vocabulary-feedback request for a word stores the
permanent \x7bword, category, addedAt\x7d entry under dict:word and deletes
the cache entry autofill: + lowercased word; every suggestion lookup run
right afterwards whose computed last token matches the word
case-insensitively therefore misses the cache — the deleted key is exactly
the one it reads — and proceeds to the model path instead of returning a
stale pre-feedback cached value. -/
theorem feedback_stores_and_invalidates (r : RedisModel) (now word : String)
    (cat : Option String)
    (hw : word ≠ "") (hset : r.failSet = false) (hdel : r.failDel = false) :
    feedbackHandler (some r) now ⟨some word, cat⟩
      = (FeedbackResp.okResp ("Learned: " ++ word),
         some ⟨delStore (setStore r.store ("dict:" ++ word) (vocabValue word cat now))
             ("autofill:" ++ jsToLower word), r.failGet, r.failSet, r.failDel, r.failMsg⟩) ∧
    lookupStore (delStore (setStore r.store ("dict:" ++ word) (vocabValue word cat now))
        ("autofill:" ++ jsToLower word)) ("dict:" ++ word) = some (vocabValue word cat now) ∧
    (∀ text cursor, jsToLower (lastWordOf text cursor) = jsToLower word →
      lookupStore (delStore (setStore r.store ("dict:" ++ word) (vocabValue word cat now))
          ("autofill:" ++ jsToLower word))
        ("autofill:" ++ jsToLower (lastWordOf text cursor)) = none) ∧
    (∀ net apiKeys keyIdx (req : CompleteReq) text, req.text = some text →
      lastWordOf text req.cursor ≠ "" →
      jsToLower (lastWordOf text req.cursor) = jsToLower word →
      r.failGet = false →
      completeHandler net apiKeys keyIdx
        (some ⟨delStore (setStore r.store ("dict:" ++ word) (vocabValue word cat now))
            ("autofill:" ++ jsToLower word), r.failGet, r.failSet, r.failDel, r.failMsg⟩) req
        = completeMiss net
            (some ⟨delStore (setStore r.store ("dict:" ++ word) (vocabValue word cat now))
                ("autofill:" ++ jsToLower word), r.failGet, r.failSet, r.failDel, r.failMsg⟩)
            keyIdx apiKeys (jsSliceTo text req.cursor) (lastWordOf text req.cursor) req.context
            ("autofill:" ++ jsToLower (lastWordOf text req.cursor))
            [Event.cacheGet ("autofill:" ++ jsToLower (lastWordOf text req.cursor))]) := by
  have hmiss : ∀ w', jsToLower w' = jsToLower word →
      lookupStore (delStore (setStore r.store ("dict:" ++ word) (vocabValue word cat now))
          ("autofill:" ++ jsToLower word)) ("autofill:" ++ jsToLower w') = none := by
    intro w' hw'
    rw [hw']
    exact lookupStore_delStore_self _ _
  refine ⟨?_, ?_, ?_, ?_⟩
  · simp [feedbackHandler, hw, hset, hdel]
  · rw [lookupStore_delStore_of_ne _ _ _ (Ne.symm (dictKey_ne_autofillKey word (jsToLower word)))]
    exact lookupStore_setStore_self _ _ _
  · intro text cursor hlw'
    exact hmiss (lastWordOf text cursor) hlw'
  · intro net apiKeys keyIdx req text ht hlw hlw' hget
    have h0 := hmiss (lastWordOf text req.cursor) hlw'
    simp only [completeHandler, ht]
    simp [hlw, hget, h0]

/-- C7 witness: feedback on "Silk" (lowercased cache key "autofill:silk")
over a store holding a stale entry for silk; the stale entry is gone, the
dict entry present, and the follow-up lookup for "I love Silk" goes down the
model path. -/
theorem feedback_stores_and_invalidates_witness :
    feedbackHandler
        (some ⟨[("autofill:silk", Json.jarr [Json.jstr ("old")])], false, false, false, ("m")⟩)
        ("t0") ⟨some ("Silk"), some ("材质")⟩
      = (FeedbackResp.okResp ("Learned: Silk"),
         some ⟨[("dict:Silk", vocabValue ("Silk") (some ("材质")) ("t0"))],
           false, false, false, ("m")⟩) ∧
    lookupStore [("dict:Silk", vocabValue ("Silk") (some ("材质")) ("t0"))]
        ("autofill:silk") = none ∧
    completeHandler (fun _ _ _ => NetOutcome.fail) [] 0
        (some ⟨[("dict:Silk", vocabValue ("Silk") (some ("材质")) ("t0"))],
          false, false, false, ("m")⟩)
        ⟨some ("I love Silk"), some 11, none⟩
      = completeMiss (fun _ _ _ => NetOutcome.fail)
          (some ⟨[("dict:Silk", vocabValue ("Silk") (some ("材质")) ("t0"))],
            false, false, false, ("m")⟩)
          0 [] ("I love Silk") ("Silk") none ("autofill:silk")
          [Event.cacheGet ("autofill:silk")] :=
  ⟨(feedback_stores_and_invalidates
      ⟨[("autofill:silk", Json.jarr [Json.jstr ("old")])], false, false, false, ("m")⟩
      ("t0") ("Silk") (some ("材质")) (by decide) rfl rfl).1,
   (feedback_stores_and_invalidates
      ⟨[("autofill:silk", Json.jarr [Json.jstr ("old")])], false, false, false, ("m")⟩
      ("t0") ("Silk") (some ("材质")) (by decide) rfl rfl).2.2.1 ("I love Silk") (some 11)
      (by decide),
   (feedback_stores_and_invalidates
      ⟨[("autofill:silk", Json.jarr [Json.jstr ("old")])], false, false, false, ("m")⟩
      ("t0") ("Silk") (some ("材质")) (by decide) rfl rfl).2.2.2
      (fun _ _ _ => NetOutcome.fail) [] 0 ⟨some ("I love Silk"), some 11, none⟩
      ("I love Silk") rfl (by decide) (by decide) rfl⟩

/-! ### C10 -/

/-- The requester records only model calls, never cache writes. -/
theorem callGemini_events_no_setex (net : String → String → String → NetOutcome)
    (keys : List String) (idx : Nat) (ft tr : String) (ctx : Option GeminiCtx) :
    hasSetex (callGemini net keys idx ft tr ctx).2.2 = false := by
  rcases hk : getNextKey keys idx with ⟨ko, i'⟩
  cases ko with
  | none => simp [callGemini, hk, hasSetex]
  | some k =>
    by_cases h0 : k = ""
    · simp [callGemini, hk, h0, hasSetex]
    · cases h1 : trySend net ("gemini-3-pro-preview") k (buildPrompt ft tr ctx) with
      | some v => simp [callGemini, hk, h0, h1, hasSetex, Event.isSetex]
      | none =>
        cases h2 : trySend net ("gemini-2.5-pro") k (buildPrompt ft tr ctx) with
        | some v => simp [callGemini, hk, h0, h1, h2, hasSetex, Event.isSetex]
        | none => simp [callGemini, hk, h0, h1, h2, hasSetex, Event.isSetex]

/-- C10 counterexample: the parse result is not validated as an array — a
model answer that is a bare JSON string of positive length passes the
`suggestions.length > 0` guard and is cached, so the stored autofill: entry
decodes to a string, not a non-empty suggestion array. -/
theorem nonArray_truthy_cached :
    (completeHandler (fun _ _ _ => NetOutcome.ok ("\"ab\"")) [("k")] 0
        (some ⟨[], false, false, false, ("m")⟩) ⟨some ("silk"), some 4, none⟩).redis
      = some ⟨[("autofill:silk", Json.jstr ("ab"))], false, false, false, ("m")⟩ ∧
    Json.isArr (Json.jstr ("ab")) = false :=
  ⟨rfl, rfl⟩

/-- C10 amended: on a miss with a responsive store, the handler writes to
the cache exactly when the store is configured and the JS test
`suggestions.length > 0` on the parse result passes — so an empty outcome
(credential absence, total model failure, or a genuine empty-array answer)
is never cached and the next lookup for the same token takes the model path
again; every value stored under an autofill: key passes that positive-length
test and both handlers preserve this invariant, but because the parse result
is not validated as an array, a truthy non-array JSON value (for example a
non-empty string) can be cached too, so stored entries decode to
positive-length values rather than necessarily non-empty suggestion
arrays. -/
theorem cacheWrite_guard_and_invariant (net : String → String → String → NetOutcome)
    (apiKeys : List String) (keyIdx : Nat) (r : RedisModel)
    (req : CompleteReq) (text : String)
    (ht : req.text = some text) (hlw : lastWordOf text req.cursor ≠ "")
    (hget : r.failGet = false)
    (hmiss : lookupStore r.store
      ("autofill:" ++ jsToLower (lastWordOf text req.cursor)) = none) :
    (jsLengthGtZero (callGemini net apiKeys keyIdx (jsSliceTo text req.cursor)
        (lastWordOf text req.cursor) req.context).1 = Except.ok false →
      (completeHandler net apiKeys keyIdx (some r) req).redis = some r ∧
      hasSetex (completeHandler net apiKeys keyIdx (some r) req).events = false) ∧
    (jsLengthGtZero (callGemini net apiKeys keyIdx (jsSliceTo text req.cursor)
        (lastWordOf text req.cursor) req.context).1 = Except.ok true →
      r.failSet = false →
      (completeHandler net apiKeys keyIdx (some r) req).redis
        = some ⟨setStore r.store ("autofill:" ++ jsToLower (lastWordOf text req.cursor))
            (callGemini net apiKeys keyIdx (jsSliceTo text req.cursor)
              (lastWordOf text req.cursor) req.context).1,
            r.failGet, r.failSet, r.failDel, r.failMsg⟩ ∧
      hasSetex (completeHandler net apiKeys keyIdx (some r) req).events = true) ∧
    (autofillInv r.store → ∀ r2,
      (completeHandler net apiKeys keyIdx (some r) req).redis = some r2 →
      autofillInv r2.store) ∧
    (∀ (rf : RedisModel) (now : String) (reqF : FeedbackReq) (rf2 : RedisModel),
      autofillInv rf.store → (feedbackHandler (some rf) now reqF).2 = some rf2 →
      autofillInv rf2.store) ∧
    ((callGemini net apiKeys keyIdx (jsSliceTo text req.cursor)
        (lastWordOf text req.cursor) req.context).1 = Json.jarr [] →
      (completeHandler net apiKeys keyIdx (some r) req).redis = some r ∧
      (∀ keyIdx2, completeHandler net apiKeys keyIdx2 (some r) req
        = completeMiss net (some r) keyIdx2 apiKeys (jsSliceTo text req.cursor)
            (lastWordOf text req.cursor) req.context
            ("autofill:" ++ jsToLower (lastWordOf text req.cursor))
            [Event.cacheGet ("autofill:" ++ jsToLower (lastWordOf text req.cursor))])) := by
  have hnos := callGemini_events_no_setex net apiKeys keyIdx (jsSliceTo text req.cursor)
    (lastWordOf text req.cursor) req.context
  have hred : completeHandler net apiKeys keyIdx (some r) req
      = completeMiss net (some r) keyIdx apiKeys (jsSliceTo text req.cursor)
          (lastWordOf text req.cursor) req.context
          ("autofill:" ++ jsToLower (lastWordOf text req.cursor))
          [Event.cacheGet ("autofill:" ++ jsToLower (lastWordOf text req.cursor))] := by
    simp [completeHandler, ht, hlw, hget, hmiss]
  refine ⟨?_, ?_, ?_, ?_, ?_⟩
  · intro hL
    rw [hred]
    constructor
    · simp [completeMiss, hL]
    · simp [completeMiss, hL, hasSetex, Event.isSetex]
      simpa [hasSetex] using hnos
  · intro hL hs
    rw [hred]
    constructor
    · simp [completeMiss, hL, hs]
    · simp [completeMiss, hL, hs, hasSetex, Event.isSetex]
  · intro hinv r2 h2
    rw [hred] at h2
    revert h2
    simp only [completeMiss]
    cases hL : jsLengthGtZero (callGemini net apiKeys keyIdx (jsSliceTo text req.cursor)
        (lastWordOf text req.cursor) req.context).1 with
    | error m =>
      intro h2
      injection h2 with h2
      subst h2
      exact hinv
    | ok b =>
      cases b with
      | false =>
        intro h2
        injection h2 with h2
        subst h2
        exact hinv
      | true =>
        by_cases hs : r.failSet
        · simp only [hs, if_true]
          intro h2
          injection h2 with h2
          subst h2
          exact hinv
        · simp only [hs, if_false]
          intro h2
          injection h2 with h2
          subst h2
          intro w v hv
          by_cases hk : ("autofill:" ++ w)
              = ("autofill:" ++ jsToLower (lastWordOf text req.cursor))
          · rw [hk, lookupStore_setStore_self] at hv
            injection hv with hv
            subst hv
            exact hL
          · rw [lookupStore_setStore_of_ne _ _ _ _ (Ne.symm hk)] at hv
            exact hinv w v hv
  · intro rf now reqF rf2 hinv h2
    obtain ⟨wordOpt, cat⟩ := reqF
    cases wordOpt with
    | none =>
      simp [feedbackHandler] at h2
      subst h2
      exact hinv
    | some word =>
      by_cases hw0 : word = ""
      · simp [feedbackHandler, hw0] at h2
        subst h2
        exact hinv
      · by_cases hs : rf.failSet
        · simp [feedbackHandler, hw0, hs] at h2
          subst h2
          exact hinv
        · by_cases hd : rf.failDel
          · simp [feedbackHandler, hw0, hs, hd] at h2
            subst h2
            intro w v hv
            rw [lookupStore_setStore_of_ne _ _ _ _ (dictKey_ne_autofillKey word w)] at hv
            exact hinv w v hv
          · simp [feedbackHandler, hw0, hs, hd] at h2
            subst h2
            intro w v hv
            by_cases hk : ("autofill:" ++ w) = ("autofill:" ++ jsToLower word)
            · rw [hk, lookupStore_delStore_self] at hv
              cases hv
            · rw [lookupStore_delStore_of_ne _ _ _ (Ne.symm hk)] at hv
              rw [lookupStore_setStore_of_ne _ _ _ _ (dictKey_ne_autofillKey word w)] at hv
              exact hinv w v hv
  · intro hcg
    constructor
    · rw [hred]
      simp [completeMiss, hcg, jsLengthGtZero]
    · intro keyIdx2
      simp [completeHandler, ht, hlw, hget, hmiss]

/-- C10 amended, witness: a total model failure caches nothing and the next
lookup goes back down the model path; a one-suggestion answer is cached
verbatim under the lowercased token key; the resulting store satisfies the
positive-length invariant, as does the store a feedback write produces. -/
theorem cacheWrite_guard_and_invariant_witness :
    ((completeHandler (fun _ _ _ => NetOutcome.fail) [("k")] 0
        (some ⟨[], false, false, false, ("m")⟩) ⟨some ("silk"), some 4, none⟩).redis
      = some ⟨[], false, false, false, ("m")⟩ ∧
     hasSetex (completeHandler (fun _ _ _ => NetOutcome.fail) [("k")] 0
        (some ⟨[], false, false, false, ("m")⟩) ⟨some ("silk"), some 4, none⟩).events
      = false) ∧
    ((completeHandler (fun _ _ _ => NetOutcome.ok ("[\"x\"]")) [("k")] 0
        (some ⟨[], false, false, false, ("m")⟩) ⟨some ("Silk"), some 4, none⟩).redis
      = some ⟨[("autofill:silk", Json.jarr [Json.jstr ("x")])], false, false, false, ("m")⟩ ∧
     hasSetex (completeHandler (fun _ _ _ => NetOutcome.ok ("[\"x\"]")) [("k")] 0
        (some ⟨[], false, false, false, ("m")⟩) ⟨some ("Silk"), some 4, none⟩).events
      = true) ∧
    autofillInv [("autofill:silk", Json.jarr [Json.jstr ("x")])] ∧
    autofillInv [("dict:Silk", vocabValue ("Silk") none ("t0"))] :=
  ⟨(cacheWrite_guard_and_invariant (fun _ _ _ => NetOutcome.fail) [("k")] 0
      ⟨[], false, false, false, ("m")⟩ ⟨some ("silk"), some 4, none⟩ ("silk")
      rfl (by decide) rfl rfl).1 rfl,
   (cacheWrite_guard_and_invariant (fun _ _ _ => NetOutcome.ok ("[\"x\"]")) [("k")] 0
      ⟨[], false, false, false, ("m")⟩ ⟨some ("Silk"), some 4, none⟩ ("Silk")
      rfl (by decide) rfl rfl).2.1 rfl rfl,
   (cacheWrite_guard_and_invariant (fun _ _ _ => NetOutcome.ok ("[\"x\"]")) [("k")] 0
      ⟨[], false, false, false, ("m")⟩ ⟨some ("Silk"), some 4, none⟩ ("Silk")
      rfl (by decide) rfl rfl).2.2.1
      (by intro w v hv; simp [lookupStore] at hv)
      ⟨[("autofill:silk", Json.jarr [Json.jstr ("x")])], false, false, false, ("m")⟩ rfl,
   (cacheWrite_guard_and_invariant (fun _ _ _ => NetOutcome.ok ("[\"x\"]")) [("k")] 0
      ⟨[], false, false, false, ("m")⟩ ⟨some ("Silk"), some 4, none⟩ ("Silk")
      rfl (by decide) rfl rfl).2.2.2.1
      ⟨[], false, false, false, ("m")⟩ ("t0") ⟨some ("Silk"), none⟩
      ⟨[("dict:Silk", vocabValue ("Silk") none ("t0"))], false, false, false, ("m")⟩
      (by intro w v hv; simp [lookupStore] at hv) rfl⟩
